import Mathlib

/-!
Verification of the authentication / password-reset core of the ewallet
backend (`AuthService` in `src/modules/auth/auth.service.ts`), embedded
shallowly in Lean.

Modelling decisions:
* Time is an integer number of milliseconds (JavaScript `Date.now()`);
  `date-fns` helpers `isAfter` and `addMinutes` are translated directly.
* The Prisma stores become explicit lists inside a `DB` record, with a
  `nextTokenId` counter standing for the database generating fresh
  primary keys for reset-password tokens.
* The bcrypt hash provider becomes an abstract `HashProvider` record of
  functions, passed as a parameter (dependency injection).
* `jsonwebtoken.sign({}, secret, { subject, expiresIn })` becomes a
  record capturing the secret, the subject claim and the expiry option.
* `resetPassword` additionally returns a trace of the store operations
  it performed, in order, so that claims about "no store lookup happens"
  and "user update happens before token invalidation" are statable.
-/

namespace EWallet

/-- A row of the Prisma `user` table. -/
structure User where
  id : String
  email : String
  name : String
  password : String
deriving Repr, DecidableEq

/-- A row of the Prisma `resetPasswordToken` table.  The database assigns
the `id`; `expiresIn` and `createdAt` are millisecond timestamps. -/
structure ResetPasswordToken where
  id : Nat
  userId : String
  active : Bool
  expiresIn : Int
  createdAt : Int
deriving Repr, DecidableEq

/-- Input of `AuthService.authenticate` (`AuthenticateDto`). -/
structure AuthenticateDto where
  email : String
  password : String
deriving Repr, DecidableEq

/-- Input of `AuthService.resetPassword` (`ResetPasswordDto`); `token` is
the id of a reset-password token row. -/
structure ResetPasswordDto where
  token : Nat
  password : String
  passwordConfirmation : String
deriving Repr, DecidableEq

/-- The `BCryptHashProvider` collaborator: `generateHash` and
`compareHash`, abstract over the actual bcrypt algorithm. -/
structure HashProvider where
  generateHash : String → String
  compareHash : String → String → Bool

/-- `authConfig.jwt`: the signing secret and the configured token
expiry option. -/
structure JwtConfig where
  secret : String
  expiresIn : String
deriving Repr, DecidableEq

/-- The result of `jsonwebtoken.sign({}, secret, { subject, expiresIn })`:
an opaque signed token, modelled by the data that went into it. -/
structure SignedJwt where
  secret : String
  subject : String
  expiresIn : String
deriving Repr, DecidableEq

/-- `sign({}, secret, { subject: ..., expiresIn: ... })`. -/
def sign (secret subject expiresIn : String) : SignedJwt :=
  { secret := secret, subject := subject, expiresIn := expiresIn }

/-- Modelled from the spec: the repository's `UserModel`
(`src/modules/users/models/user.model.ts`) is not among the provided
sources; per the spec, `plainToClass(UserModel, user)` returns "the
sanitized user (password field stripped)", so the model carries every
`User` field except `password`. -/
structure UserModel where
  id : String
  email : String
  name : String
deriving Repr, DecidableEq

/-- Modelled from the spec: `plainToClass(UserModel, user)` strips the
password field and keeps the rest. -/
def plainToUserModel (u : User) : UserModel :=
  { id := u.id, email := u.email, name := u.name }

/-- `IAuthResponse`: sanitized user plus signed token. -/
structure IAuthResponse where
  user : UserModel
  token : SignedJwt
deriving Repr, DecidableEq

/-- The persistent state seen by `AuthService`: the two Prisma tables
plus the database's fresh-id counter for reset-password tokens. -/
structure DB where
  users : List User
  tokens : List ResetPasswordToken
  nextTokenId : Nat
deriving Repr, DecidableEq

/-- Database well-formedness: every stored token id was produced by the
counter, hence is below it. -/
def DB.wf (db : DB) : Prop :=
  ∀ t ∈ db.tokens, t.id < db.nextTokenId

instance (db : DB) : Decidable db.wf := by
  unfold DB.wf; infer_instance

/-- `date-fns` `isAfter a b`: is `a` strictly after `b`. -/
def isAfter (a b : Int) : Bool :=
  b < a

/-- `date-fns` `addMinutes d m` on millisecond timestamps. -/
def addMinutes (d m : Int) : Int :=
  d + m * 60000

/-- One store operation performed by `resetPassword`, for tracing order
of effects. -/
inductive StoreEv where
  | tokenFindById (id : Nat)
  | userFindById (id : String)
  | userUpdatePassword (id : String) (newHash : String)
  | tokenDeactivate (id : Nat)
deriving Repr, DecidableEq

/-- `prisma.user.update({ where: { id }, data: { password } })`. -/
def updateUserPassword (users : List User) (uid hashed : String) : List User :=
  users.map fun u => if u.id = uid then { u with password := hashed } else u

/-- `prisma.resetPasswordToken.update({ where: { id }, data: { active: false } })`. -/
def deactivateToken (tokens : List ResetPasswordToken) (tid : Nat) :
    List ResetPasswordToken :=
  tokens.map fun t => if t.id = tid then { t with active := false } else t

/-- Fold step selecting the token created later (keeping the earlier
list element on ties, matching table order for `orderBy: desc`). -/
def pickLater (acc : Option ResetPasswordToken) (t : ResetPasswordToken) :
    Option ResetPasswordToken :=
  match acc with
  | none => some t
  | some b => if b.createdAt < t.createdAt then some t else some b

/-- `prisma.resetPasswordToken.findFirst({ where: { userId }, orderBy:
{ createdAt: 'desc' } })`: among the user's tokens, the one with the
greatest `createdAt` (first in table order on ties). -/
def latestTokenFor (tokens : List ResetPasswordToken) (uid : String) :
    Option ResetPasswordToken :=
  (tokens.filter fun t => t.userId = uid).foldl pickLater none

/-- `AuthService.authenticate`. -/
def authenticate (hp : HashProvider) (cfg : JwtConfig) (db : DB)
    (credentials : AuthenticateDto) : Except String IAuthResponse :=
  match db.users.find? (fun u => u.email = credentials.email) with
  | none => .error "Incorrect email/paswword combination"
  | some user =>
    if hp.compareHash credentials.password user.password then
      .ok { user := plainToUserModel user
            token := sign cfg.secret user.id cfg.expiresIn }
    else
      .error "Incorrect email/paswword combination"

/-- `AuthService.generateResetPasswordToken`.  `ttl` is
`Number(process.env.RESET_PASSWORD_TOKEN_EXPIRES_IN)` (minutes), `now`
the current time.  Returns the token together with the updated state. -/
def generateResetPasswordToken (ttl now : Int) (db : DB) (userId : String) :
    ResetPasswordToken × DB :=
  let lastToken := latestTokenFor db.tokens userId
  let newToken : ResetPasswordToken :=
    { id := db.nextTokenId, userId := userId, active := true
      expiresIn := addMinutes now ttl, createdAt := now }
  let created : ResetPasswordToken × DB :=
    (newToken,
     { db with tokens := db.tokens ++ [newToken], nextTokenId := db.nextTokenId + 1 })
  match lastToken with
  | none => created
  | some t => if !t.active || decide (t.expiresIn < now) then created else (t, db)

/-- `AuthService.resetPassword`.  Returns the outcome, the updated
state, and the ordered trace of store operations performed. -/
def resetPassword (hp : HashProvider) (now : Int) (db : DB)
    (data : ResetPasswordDto) : Except String Unit × DB × List StoreEv :=
  if data.password ≠ data.passwordConfirmation then
    (.error "Password and password confirmation do not match", db, [])
  else
    match db.tokens.find? (fun t => t.id = data.token) with
    | none => (.error "Invalid reset password token", db,
               [.tokenFindById data.token])
    | some resetPasswordToken =>
      match db.users.find? (fun u => u.id = resetPasswordToken.userId) with
      | none => (.error "Invalid reset password token", db,
                 [.tokenFindById data.token,
                  .userFindById resetPasswordToken.userId])
      | some user =>
        if isAfter now resetPasswordToken.expiresIn || !resetPasswordToken.active then
          (.error "Reset password token is expired", db,
           [.tokenFindById data.token,
            .userFindById resetPasswordToken.userId])
        else
          let hashedPassword := hp.generateHash data.password
          (.ok (),
           { db with
               users := updateUserPassword db.users user.id hashedPassword
               tokens := deactivateToken db.tokens resetPasswordToken.id },
           [.tokenFindById data.token,
            .userFindById resetPasswordToken.userId,
            .userUpdatePassword user.id hashedPassword,
            .tokenDeactivate resetPasswordToken.id])

instance decEqExcept {ε α : Type} [DecidableEq ε] [DecidableEq α] :
    DecidableEq (Except ε α)
  | .error e₁, .error e₂ =>
    if h : e₁ = e₂ then .isTrue (by rw [h])
    else .isFalse (by intro hc; cases hc; exact h rfl)
  | .error _, .ok _ => .isFalse (by intro hc; cases hc)
  | .ok _, .error _ => .isFalse (by intro hc; cases hc)
  | .ok a₁, .ok a₂ =>
    if h : a₁ = a₂ then .isTrue (by rw [h])
    else .isFalse (by intro hc; cases hc; exact h rfl)

/-! Helper lemmas about the store operations. -/

theorem foldl_pickLater_eq_some {l : List ResetPasswordToken}
    {acc : Option ResetPasswordToken} {b : ResetPasswordToken}
    (h : l.foldl pickLater acc = some b) : b ∈ l ∨ acc = some b := by
  induction l generalizing acc with
  | nil => exact Or.inr h
  | cons a as ih =>
    rcases ih (h := h) with hmem | hacc
    · exact Or.inl (List.mem_cons_of_mem _ hmem)
    · cases acc with
      | none =>
        simp only [pickLater] at hacc
        cases hacc
        exact Or.inl (List.mem_cons_self _ _)
      | some c =>
        simp only [pickLater] at hacc
        split at hacc
        · cases hacc
          exact Or.inl (List.mem_cons_self _ _)
        · exact Or.inr hacc

theorem latestTokenFor_mem {tokens : List ResetPasswordToken} {uid : String}
    {t : ResetPasswordToken} (h : latestTokenFor tokens uid = some t) :
    t ∈ tokens ∧ t.userId = uid := by
  unfold latestTokenFor at h
  rcases foldl_pickLater_eq_some h with hmem | hnone
  · exact ⟨(List.mem_filter.mp hmem).1, by
      have := (List.mem_filter.mp hmem).2
      simpa using this⟩
  · cases hnone

theorem latestTokenFor_append_newest (tokens : List ResetPasswordToken)
    (tok : ResetPasswordToken) (uid : String) (huid : tok.userId = uid)
    (hlt : ∀ t ∈ tokens, t.createdAt < tok.createdAt) :
    latestTokenFor (tokens ++ [tok]) uid = some tok := by
  unfold latestTokenFor
  rw [List.filter_append, List.foldl_append]
  have hfil : List.filter (fun t => decide (t.userId = uid)) [tok] = [tok] := by
    simp [List.filter, huid]
  rw [hfil]
  cases hacc : (tokens.filter fun t => t.userId = uid).foldl pickLater none with
  | none => rfl
  | some b =>
    have hb : b ∈ tokens := by
      rcases foldl_pickLater_eq_some hacc with hmem | hnone
      · exact (List.mem_filter.mp hmem).1
      · cases hnone
    have : b.createdAt < tok.createdAt := hlt b hb
    simp [pickLater, this]

theorem find_id_updateUserPassword (users : List User) (uid hashed x : String) :
    (updateUserPassword users uid hashed).find? (fun u => u.id = x)
      = (users.find? (fun u => u.id = x)).map
          (fun u => if u.id = uid then { u with password := hashed } else u) := by
  unfold updateUserPassword
  rw [List.find?_map]
  have hpred : ((fun u => decide (u.id = x)) ∘ fun u =>
      if u.id = uid then { u with password := hashed } else u)
      = (fun u : User => decide (u.id = x)) := by
    funext u
    by_cases h : u.id = uid <;> simp [Function.comp, h]
  rw [hpred]

theorem find_id_deactivateToken (tokens : List ResetPasswordToken) (tid x : Nat) :
    (deactivateToken tokens tid).find? (fun t => t.id = x)
      = (tokens.find? (fun t => t.id = x)).map
          (fun t => if t.id = tid then { t with active := false } else t) := by
  unfold deactivateToken
  rw [List.find?_map]
  have hpred : ((fun t => decide (t.id = x)) ∘ fun t =>
      if t.id = tid then { t with active := false } else t)
      = (fun t : ResetPasswordToken => decide (t.id = x)) := by
    funext t
    by_cases h : t.id = tid <;> simp [Function.comp, h]
  rw [hpred]

/-- Inversion of a successful `resetPassword` call: the confirmation
matched, a token and its user were found, the token passed the expiry
check, and the result is exactly the success tuple. -/
theorem resetPassword_ok_inversion (hp : HashProvider) (now : Int) (db : DB)
    (d : ResetPasswordDto) (hok : (resetPassword hp now db d).1 = .ok ()) :
    d.password = d.passwordConfirmation ∧
    ∃ rpt u,
      db.tokens.find? (fun t => t.id = d.token) = some rpt ∧
      db.users.find? (fun x => x.id = rpt.userId) = some u ∧
      (isAfter now rpt.expiresIn || !rpt.active) = false ∧
      resetPassword hp now db d =
        (.ok (),
         { db with
             users := updateUserPassword db.users u.id (hp.generateHash d.password)
             tokens := deactivateToken db.tokens rpt.id },
         [.tokenFindById d.token, .userFindById rpt.userId,
          .userUpdatePassword u.id (hp.generateHash d.password),
          .tokenDeactivate rpt.id]) := by
  by_cases hc : d.password = d.passwordConfirmation
  · refine ⟨hc, ?_⟩
    cases hft : db.tokens.find? (fun t => t.id = d.token) with
    | none => simp [resetPassword, hc, hft] at hok
    | some rpt =>
      cases hfu : db.users.find? (fun x => x.id = rpt.userId) with
      | none => simp [resetPassword, hc, hft, hfu] at hok
      | some u =>
        cases hexp : (isAfter now rpt.expiresIn || !rpt.active) with
        | true => simp [resetPassword, hc, hft, hfu, hexp] at hok
        | false =>
          exact ⟨rpt, u, rfl, hfu, hexp, by
            simp [resetPassword, hc, hft, hfu, hexp]⟩
  · simp [resetPassword, hc] at hok

/-- Every failing `resetPassword` call leaves the state untouched. -/
theorem resetPassword_error_fixes_db (hp : HashProvider) (now : Int) (db : DB)
    (d : ResetPasswordDto) (m : String)
    (h : (resetPassword hp now db d).1 = .error m) :
    (resetPassword hp now db d).2.1 = db := by
  by_cases hc : d.password = d.passwordConfirmation
  · cases hft : db.tokens.find? (fun t => t.id = d.token) with
    | none => simp [resetPassword, hc, hft]
    | some rpt =>
      cases hfu : db.users.find? (fun x => x.id = rpt.userId) with
      | none => simp [resetPassword, hc, hft, hfu]
      | some u =>
        cases hexp : (isAfter now rpt.expiresIn || !rpt.active) with
        | true => simp [resetPassword, hc, hft, hfu, hexp]
        | false => simp [resetPassword, hc, hft, hfu, hexp] at h
  · simp [resetPassword, hc]

/-! Concrete fixtures used by witnesses and counterexamples. -/

/-- A concrete hash provider satisfying the bcrypt contract:
`compareHash plain stored` succeeds exactly when `stored` is the hash of
`plain`. -/
def hpModel : HashProvider :=
  { generateHash := fun p => "hash:" ++ p
    compareHash := fun p stored => stored = "hash:" ++ p }

def cfg0 : JwtConfig := { secret := "jwt-secret", expiresIn := "1d" }

def user0 : User :=
  { id := "u1", email := "alice@ewallet.com", name := "Alice"
    password := "hash:abc12345" }

/-- An active token for `user0` expiring at time 1000. -/
def tok0 : ResetPasswordToken :=
  { id := 0, userId := "u1", active := true, expiresIn := 1000, createdAt := 100 }

def db0 : DB := { users := [user0], tokens := [tok0], nextTokenId := 1 }

/-- `generateResetPasswordToken` either creates the fresh token (append,
counter bump) or reuses the most recent token and leaves the state
untouched. -/
theorem generate_result_cases (ttl now : Int) (db : DB) (uid : String) :
    generateResetPasswordToken ttl now db uid =
      ({ id := db.nextTokenId, userId := uid, active := true
         expiresIn := addMinutes now ttl, createdAt := now },
       { db with
           tokens := db.tokens ++
             [{ id := db.nextTokenId, userId := uid, active := true
                expiresIn := addMinutes now ttl, createdAt := now }]
           nextTokenId := db.nextTokenId + 1 }) ∨
    (∃ t, latestTokenFor db.tokens uid = some t ∧
          generateResetPasswordToken ttl now db uid = (t, db)) := by
  cases hl : latestTokenFor db.tokens uid with
  | none => exact Or.inl (by simp [generateResetPasswordToken, hl])
  | some t =>
    cases hcond : (!t.active || decide (t.expiresIn < now)) with
    | true => exact Or.inl (by simp [generateResetPasswordToken, hl, hcond])
    | false =>
      exact Or.inr ⟨t, rfl, by simp [generateResetPasswordToken, hl, hcond]⟩

/-- When the most recent token is active and not strictly expired,
`generateResetPasswordToken` returns it and changes nothing. -/
theorem generate_reuse (ttl now : Int) (db : DB) (uid : String)
    (t : ResetPasswordToken) (hl : latestTokenFor db.tokens uid = some t)
    (ha : t.active = true) (hv : ¬ t.expiresIn < now) :
    generateResetPasswordToken ttl now db uid = (t, db) := by
  simp [generateResetPasswordToken, hl, ha, hv]

/-! Claims C1–C10. -/

/-- C1: `generateResetPasswordToken` computes `isLastTokenExpired` as
true exactly when no prior token exists, or it is inactive, or its
`expiresIn` is strictly before now; if so it creates and returns a
brand-new row (fresh id, `active = true`, `expiresIn = now + ttl`
minutes), otherwise it returns the most recent token unchanged, creating
no row and not extending the TTL. -/
theorem generateResetPasswordToken_spec (ttl now : Int) (db : DB)
    (uid : String) (hwf : db.wf) :
    ((latestTokenFor db.tokens uid = none ∨
        (∃ t, latestTokenFor db.tokens uid = some t ∧
              (t.active = false ∨ t.expiresIn < now))) →
      ((generateResetPasswordToken ttl now db uid).1.active = true ∧
       (generateResetPasswordToken ttl now db uid).1.userId = uid ∧
       (generateResetPasswordToken ttl now db uid).1.expiresIn
         = addMinutes now ttl ∧
       (∀ t ∈ db.tokens, t.id ≠ (generateResetPasswordToken ttl now db uid).1.id) ∧
       (generateResetPasswordToken ttl now db uid).2.tokens
         = db.tokens ++ [(generateResetPasswordToken ttl now db uid).1] ∧
       (generateResetPasswordToken ttl now db uid).2.users = db.users)) ∧
    (∀ t, latestTokenFor db.tokens uid = some t → t.active = true →
      ¬ t.expiresIn < now →
      generateResetPasswordToken ttl now db uid = (t, db)) := by
  have hfresh : ∀ t ∈ db.tokens, t.id ≠ db.nextTokenId :=
    fun t ht => Nat.ne_of_lt (hwf t ht)
  constructor
  · rintro (hnone | ⟨t, hsome, hcond⟩)
    · refine ⟨?_, ?_, ?_, ?_, ?_, ?_⟩ <;>
        simp [generateResetPasswordToken, hnone] <;> exact hfresh
    · rcases hcond with ha | he
      · refine ⟨?_, ?_, ?_, ?_, ?_, ?_⟩ <;>
          simp [generateResetPasswordToken, hsome, ha] <;> exact hfresh
      · refine ⟨?_, ?_, ?_, ?_, ?_, ?_⟩ <;>
          simp [generateResetPasswordToken, hsome, he] <;> exact hfresh
  · exact fun t hsome ha hv => generate_reuse ttl now db uid t hsome ha hv

/-- Witness for C1 at a concrete store: the reuse branch at `db0`. -/
theorem generateResetPasswordToken_spec_witness :
    generateResetPasswordToken 30 500 db0 "u1" = (tok0, db0) :=
  (generateResetPasswordToken_spec 30 500 db0 "u1" (by decide)).2
    tok0 (by decide) (by decide) (by decide)

/-- C2: two `generateResetPasswordToken` calls in succession return the
same token id as long as the first call's token is still active and its
expiry has not passed by the time of the second call (idempotent reuse
within the validity window). -/
theorem generateResetPasswordToken_idempotent (ttl now₁ now₂ : Int)
    (db : DB) (uid : String)
    (hmono : ∀ t ∈ db.tokens, t.createdAt < now₁)
    (hle : now₁ ≤ now₂)
    (hactive : (generateResetPasswordToken ttl now₁ db uid).1.active = true)
    (hvalid : ¬ (generateResetPasswordToken ttl now₁ db uid).1.expiresIn < now₂) :
    (generateResetPasswordToken ttl now₂
        (generateResetPasswordToken ttl now₁ db uid).2 uid).1.id
      = (generateResetPasswordToken ttl now₁ db uid).1.id := by
  rcases generate_result_cases ttl now₁ db uid with h1 | ⟨t, hl, h1⟩
  · rw [h1] at hvalid ⊢
    have hlat2 : latestTokenFor
        (db.tokens ++
          [{ id := db.nextTokenId, userId := uid, active := true
             expiresIn := addMinutes now₁ ttl, createdAt := now₁ }]) uid
        = some { id := db.nextTokenId, userId := uid, active := true
                 expiresIn := addMinutes now₁ ttl, createdAt := now₁ } :=
      latestTokenFor_append_newest _ _ _ rfl hmono
    rw [generate_reuse ttl now₂ _ uid _ hlat2 rfl hvalid]
  · rw [h1] at hactive hvalid ⊢
    rw [generate_reuse ttl now₂ db uid t hl hactive hvalid]

/-- Witness for C2: two calls on `db0` at times 500 and 600, inside the
validity window of `tok0`. -/
theorem generateResetPasswordToken_idempotent_witness :
    (generateResetPasswordToken 30 600
        (generateResetPasswordToken 30 500 db0 "u1").2 "u1").1.id
      = (generateResetPasswordToken 30 500 db0 "u1").1.id :=
  generateResetPasswordToken_idempotent 30 500 600 db0 "u1"
    (by decide) (by decide) (by decide) (by decide)

/-! Claims C5–C8. -/

/-- C5: the unknown-email failure and the wrong-password failure of
`authenticate` carry one and the same fixed message, so the two causes
are indistinguishable to the caller. -/
theorem authenticate_failures_indistinguishable
    (hp : HashProvider) (cfg : JwtConfig) (db : DB)
    (c₁ c₂ : AuthenticateDto) (u : User)
    (h₁ : db.users.find? (fun x => x.email = c₁.email) = none)
    (h₂ : db.users.find? (fun x => x.email = c₂.email) = some u)
    (h₃ : hp.compareHash c₂.password u.password = false) :
    ∃ m, authenticate hp cfg db c₁ = .error m ∧
         authenticate hp cfg db c₂ = .error m := by
  refine ⟨"Incorrect email/paswword combination", ?_, ?_⟩ <;>
    simp [authenticate, h₁, h₂, h₃]

/-- Witness for C5 at a concrete store: one failure from an unregistered
email, one from a wrong password, same message. -/
theorem authenticate_failures_indistinguishable_witness :
    ∃ m, authenticate hpModel cfg0 db0 ⟨"nobody@ewallet.com", "abc12345"⟩ = .error m ∧
         authenticate hpModel cfg0 db0 ⟨"alice@ewallet.com", "wrongpass"⟩ = .error m :=
  authenticate_failures_indistinguishable hpModel cfg0 db0
    ⟨"nobody@ewallet.com", "abc12345"⟩ ⟨"alice@ewallet.com", "wrongpass"⟩ user0
    (by decide) (by decide) (by decide)

/-- C6: with mismatched password/confirmation, `resetPassword` fails
with the mismatch message, touches no store (empty operation trace) and
leaves the state unchanged. -/
theorem resetPassword_mismatch_before_any_lookup
    (hp : HashProvider) (now : Int) (db : DB) (d : ResetPasswordDto)
    (h : d.password ≠ d.passwordConfirmation) :
    resetPassword hp now db d =
      (.error "Password and password confirmation do not match", db, []) := by
  simp [resetPassword, h]

/-- Witness for C6 at a concrete input. -/
theorem resetPassword_mismatch_before_any_lookup_witness :
    resetPassword hpModel 500 db0 ⟨0, "newpass1", "newpass2"⟩ =
      (.error "Password and password confirmation do not match", db0, []) :=
  resetPassword_mismatch_before_any_lookup hpModel 500 db0
    ⟨0, "newpass1", "newpass2"⟩ (by decide)

/-- C7: an unknown token id and a found token whose owning user is
missing both make `resetPassword` fail with one and the same fixed
message. -/
theorem resetPassword_invalid_token_indistinguishable
    (hp : HashProvider) (now : Int) (db : DB)
    (d₁ d₂ : ResetPasswordDto) (rpt : ResetPasswordToken)
    (hc₁ : d₁.password = d₁.passwordConfirmation)
    (hc₂ : d₂.password = d₂.passwordConfirmation)
    (h₁ : db.tokens.find? (fun t => t.id = d₁.token) = none)
    (h₂ : db.tokens.find? (fun t => t.id = d₂.token) = some rpt)
    (h₃ : db.users.find? (fun u => u.id = rpt.userId) = none) :
    ∃ m, (resetPassword hp now db d₁).1 = .error m ∧
         (resetPassword hp now db d₂).1 = .error m := by
  refine ⟨"Invalid reset password token", ?_, ?_⟩ <;>
    simp [resetPassword, hc₁, hc₂, h₁, h₂, h₃]

/-- Witness for C7: a store holding an orphaned token (owner `u9` does
not exist); token id 7 is unknown, token id 5 is orphaned. -/
theorem resetPassword_invalid_token_indistinguishable_witness :
    ∃ m, (resetPassword hpModel 500
            { users := [user0]
              tokens := [{ id := 5, userId := "u9", active := true
                           expiresIn := 1000, createdAt := 100 }]
              nextTokenId := 6 } ⟨7, "pw", "pw"⟩).1 = .error m ∧
         (resetPassword hpModel 500
            { users := [user0]
              tokens := [{ id := 5, userId := "u9", active := true
                           expiresIn := 1000, createdAt := 100 }]
              nextTokenId := 6 } ⟨5, "pw", "pw"⟩).1 = .error m :=
  resetPassword_invalid_token_indistinguishable hpModel 500 _
    ⟨7, "pw", "pw"⟩ ⟨5, "pw", "pw"⟩
    { id := 5, userId := "u9", active := true, expiresIn := 1000, createdAt := 100 }
    (by decide) (by decide) (by decide) (by decide) (by decide)

/-- C8: when `authenticate` succeeds, the returned signed token's
subject claim is the user's id with the configured expiry, and the
returned user is the sanitized record (password field stripped: a
`UserModel` carries only id, email and name). -/
theorem authenticate_success_shape
    (hp : HashProvider) (cfg : JwtConfig) (db : DB)
    (c : AuthenticateDto) (u : User)
    (hu : db.users.find? (fun x => x.email = c.email) = some u)
    (hm : hp.compareHash c.password u.password = true) :
    ∃ r, authenticate hp cfg db c = .ok r ∧
         r.token.subject = u.id ∧
         r.token.expiresIn = cfg.expiresIn ∧
         r.user = { id := u.id, email := u.email, name := u.name } := by
  refine ⟨{ user := plainToUserModel u, token := sign cfg.secret u.id cfg.expiresIn },
          ?_, rfl, rfl, rfl⟩
  simp [authenticate, hu, hm]

/-- Witness for C8: a successful authentication at a concrete store. -/
theorem authenticate_success_shape_witness :
    ∃ r, authenticate hpModel cfg0 db0 ⟨"alice@ewallet.com", "abc12345"⟩ = .ok r ∧
         r.token.subject = user0.id ∧
         r.token.expiresIn = cfg0.expiresIn ∧
         r.user = { id := user0.id, email := user0.email, name := user0.name } :=
  authenticate_success_shape hpModel cfg0 db0
    ⟨"alice@ewallet.com", "abc12345"⟩ user0 (by decide) (by decide)

/-- C4: on the success path, `resetPassword` stores the hash of the new
password in the user's password field and sets the token's `active` flag
to false, with the user update performed before the token invalidation
(witnessed by the ordered trace of store operations). -/
theorem resetPassword_success_effects (hp : HashProvider) (now : Int)
    (db : DB) (d : ResetPasswordDto)
    (hok : (resetPassword hp now db d).1 = .ok ()) :
    ∃ rpt u,
      db.tokens.find? (fun t => t.id = d.token) = some rpt ∧
      db.users.find? (fun x => x.id = rpt.userId) = some u ∧
      (resetPassword hp now db d).2.2 =
        [.tokenFindById d.token, .userFindById rpt.userId,
         .userUpdatePassword u.id (hp.generateHash d.password),
         .tokenDeactivate rpt.id] ∧
      (resetPassword hp now db d).2.1.users.find? (fun x => x.id = u.id)
        = some { u with password := hp.generateHash d.password } ∧
      (resetPassword hp now db d).2.1.tokens.find? (fun t => t.id = rpt.id)
        = some { rpt with active := false } := by
  obtain ⟨hc, rpt, u, hft, hfu, hexp, heq⟩ := resetPassword_ok_inversion hp now db d hok
  have huid : u.id = rpt.userId := by simpa using List.find?_some hfu
  have htid : rpt.id = d.token := by simpa using List.find?_some hft
  refine ⟨rpt, u, hft, hfu, ?_, ?_, ?_⟩
  · rw [heq]
  · rw [heq]
    show (updateUserPassword db.users u.id (hp.generateHash d.password)).find?
        (fun x => x.id = u.id) = some { u with password := hp.generateHash d.password }
    rw [find_id_updateUserPassword]
    have hfu' : db.users.find? (fun x => x.id = u.id) = some u := by
      rw [huid]; exact hfu
    rw [hfu']
    simp
  · rw [heq]
    show (deactivateToken db.tokens rpt.id).find? (fun t => t.id = rpt.id)
        = some { rpt with active := false }
    rw [find_id_deactivateToken]
    have hft' : db.tokens.find? (fun t => t.id = rpt.id) = some rpt := by
      rw [htid]; exact hft
    rw [hft']
    simp

/-- Witness for C4: a concrete successful reset on `db0`. -/
theorem resetPassword_success_effects_witness :
    ∃ rpt u,
      db0.tokens.find? (fun t => t.id = (0 : Nat)) = some rpt ∧
      db0.users.find? (fun x => x.id = rpt.userId) = some u ∧
      (resetPassword hpModel 500 db0 ⟨0, "newpass1", "newpass1"⟩).2.2 =
        [.tokenFindById 0, .userFindById rpt.userId,
         .userUpdatePassword u.id (hpModel.generateHash "newpass1"),
         .tokenDeactivate rpt.id] ∧
      (resetPassword hpModel 500 db0 ⟨0, "newpass1", "newpass1"⟩).2.1.users.find?
          (fun x => x.id = u.id)
        = some { u with password := hpModel.generateHash "newpass1" } ∧
      (resetPassword hpModel 500 db0 ⟨0, "newpass1", "newpass1"⟩).2.1.tokens.find?
          (fun t => t.id = rpt.id)
        = some { rpt with active := false } :=
  resetPassword_success_effects hpModel 500 db0 ⟨0, "newpass1", "newpass1"⟩
    (by decide)

/-- C9: `resetPassword` is atomic on failure: whenever it fails, the
state (every password field and every active flag) is exactly as it was
before the call. -/
theorem resetPassword_failure_atomic (hp : HashProvider) (now : Int)
    (db : DB) (d : ResetPasswordDto) (m : String)
    (h : (resetPassword hp now db d).1 = .error m) :
    (resetPassword hp now db d).2.1 = db :=
  resetPassword_error_fixes_db hp now db d m h

/-- Witness for C9 at a concrete failing input (mismatched
confirmation). -/
theorem resetPassword_failure_atomic_witness :
    (resetPassword hpModel 500 db0 ⟨0, "aa", "bb"⟩).2.1 = db0 :=
  resetPassword_failure_atomic hpModel 500 db0 ⟨0, "aa", "bb"⟩
    "Password and password confirmation do not match" (by decide)

/-- C3 counterexample: after a successful reset consuming token 0, a
subsequent call presenting the same token but with mismatched
password/confirmation fails with the mismatch message, not with
"Reset password token is expired", refuting the claim for that call. -/
theorem resetPassword_reuse_not_always_expired_message :
    (resetPassword hpModel 500 db0 ⟨0, "newpass1", "newpass1"⟩).1 = .ok () ∧
    (resetPassword hpModel 600
        (resetPassword hpModel 500 db0 ⟨0, "newpass1", "newpass1"⟩).2.1
        ⟨0, "aaa", "bbb"⟩).1
      = .error "Password and password confirmation do not match" ∧
    (resetPassword hpModel 600
        (resetPassword hpModel 500 db0 ⟨0, "newpass1", "newpass1"⟩).2.1
        ⟨0, "aaa", "bbb"⟩).1
      ≠ .error "Reset password token is expired" := by
  refine ⟨by decide, by decide, by decide⟩

/-- C3 (amended): after a successful reset, every subsequent
`resetPassword` call presenting the same token fails and mutates
nothing; when that call's password equals its confirmation the failure
message is exactly "Reset password token is expired" (calls with
mismatched confirmation fail earlier, with the mismatch message). -/
theorem resetPassword_single_use (hp : HashProvider) (now : Int) (db : DB)
    (d : ResetPasswordDto) (hok : (resetPassword hp now db d).1 = .ok ())
    (hp₂ : HashProvider) (now₂ : Int) (d₂ : ResetPasswordDto)
    (ht : d₂.token = d.token) :
    (∃ m, (resetPassword hp₂ now₂ (resetPassword hp now db d).2.1 d₂).1 = .error m) ∧
    (d₂.password = d₂.passwordConfirmation →
      (resetPassword hp₂ now₂ (resetPassword hp now db d).2.1 d₂).1
        = .error "Reset password token is expired") ∧
    (resetPassword hp₂ now₂ (resetPassword hp now db d).2.1 d₂).2.1
      = (resetPassword hp now db d).2.1 := by
  obtain ⟨hc, rpt, u, hft, hfu, hexp, heq⟩ := resetPassword_ok_inversion hp now db d hok
  have huid : u.id = rpt.userId := by simpa using List.find?_some hfu
  have htid : rpt.id = d.token := by simpa using List.find?_some hft
  by_cases hc₂ : d₂.password = d₂.passwordConfirmation
  · have hft' : db.tokens.find? (fun t => t.id = rpt.id) = some rpt := by
      rw [htid]; exact hft
    have hft₂ : (deactivateToken db.tokens rpt.id).find? (fun t => t.id = d₂.token)
        = some { rpt with active := false } := by
      rw [ht, ← htid, find_id_deactivateToken, hft']
      simp
    have hfu₂ : (updateUserPassword db.users u.id (hp.generateHash d.password)).find?
        (fun x => x.id = rpt.userId)
        = some { u with password := hp.generateHash d.password } := by
      rw [find_id_updateUserPassword, hfu]
      simp
    rw [heq]
    refine ⟨⟨"Reset password token is expired", ?_⟩, fun _ => ?_, ?_⟩ <;>
      simp [resetPassword, hc₂, hft₂, hfu₂]
  · rw [heq]
    refine ⟨⟨"Password and password confirmation do not match", ?_⟩,
            fun h => absurd h hc₂, ?_⟩ <;>
      simp [resetPassword, hc₂]

/-- Witness for C3 (amended): concrete consumed token, then a concrete
second attempt with matching confirmation. -/
theorem resetPassword_single_use_witness :
    (∃ m, (resetPassword hpModel 600
        (resetPassword hpModel 500 db0 ⟨0, "newpass1", "newpass1"⟩).2.1
        ⟨0, "newpass2", "newpass2"⟩).1 = .error m) ∧
    (("newpass2" : String) = "newpass2" →
      (resetPassword hpModel 600
          (resetPassword hpModel 500 db0 ⟨0, "newpass1", "newpass1"⟩).2.1
          ⟨0, "newpass2", "newpass2"⟩).1
        = .error "Reset password token is expired") ∧
    (resetPassword hpModel 600
        (resetPassword hpModel 500 db0 ⟨0, "newpass1", "newpass1"⟩).2.1
        ⟨0, "newpass2", "newpass2"⟩).2.1
      = (resetPassword hpModel 500 db0 ⟨0, "newpass1", "newpass1"⟩).2.1 :=
  resetPassword_single_use hpModel 500 db0 ⟨0, "newpass1", "newpass1"⟩
    (by decide) hpModel 600 ⟨0, "newpass2", "newpass2"⟩ rfl

/-- A token sitting exactly on the expiry boundary for C10. -/
def tokB : ResetPasswordToken :=
  { id := 0, userId := "u1", active := true, expiresIn := 500, createdAt := 100 }

def dbB : DB := { users := [user0], tokens := [tokB], nextTokenId := 1 }

/-- C10: both expiry comparisons are strict and agree at the boundary:
an active token with `expiresIn` equal to the current time is reused by
`generateResetPasswordToken` (state unchanged) and passes
`resetPassword`'s expiry check, so the reset succeeds. -/
theorem expiry_boundary_agreement (ttl now : Int) (db : DB) (uid : String)
    (t : ResetPasswordToken) (hp : HashProvider) (d : ResetPasswordDto)
    (u : User)
    (hl : latestTokenFor db.tokens uid = some t)
    (ha : t.active = true) (he : t.expiresIn = now)
    (hf : db.tokens.find? (fun x => x.id = d.token) = some t)
    (hu : db.users.find? (fun x => x.id = t.userId) = some u)
    (hc : d.password = d.passwordConfirmation) :
    generateResetPasswordToken ttl now db uid = (t, db) ∧
    (resetPassword hp now db d).1 = .ok () := by
  constructor
  · exact generate_reuse ttl now db uid t hl ha (by rw [he]; exact lt_irrefl now)
  · simp [resetPassword, hc, hf, hu, isAfter, he, ha]

/-- Witness for C10: token expiring exactly at time 500, call at 500. -/
theorem expiry_boundary_agreement_witness :
    generateResetPasswordToken 30 500 dbB "u1" = (tokB, dbB) ∧
    (resetPassword hpModel 500 dbB ⟨0, "pw", "pw"⟩).1 = .ok () :=
  expiry_boundary_agreement 30 500 dbB "u1" tokB hpModel ⟨0, "pw", "pw"⟩ user0
    (by decide) (by decide) (by decide) (by decide) (by decide) (by decide)

end EWallet
